import Mathlib

/-
Verification of the lkmlstyle rule engine.

This file gives a shallow embedding, in Lean, of the parts of the repository
that the claims speak about:

  * the syntax-node interface consumed from the lkml parser
    (lkml.tree: PairNode, BlockNode, ListNode, ContainerNode),
  * the rule model of src/lkmlstyle/rules.py (Rule, PatternMatchRule,
    OrderRule, DuplicateViewRule, NodeContext, the predicate library), and
  * the configuration layer of src/lkmlstyle/check.py (choose_rules).

Python dictionaries are embedded as association lists keyed by strings in
insertion order, Python None through Option, and Python exceptions through
Except.  Python truthiness is made explicit where the source relies on it
(None and the empty string and the empty tuple are falsy).
-/

set_option autoImplicit false

namespace Lkmlstyle

/--
Syntax nodes of the lkml tree interface, as consumed by the rule engine.

A PairNode carries its key (the Python attribute node.type.value) and its
value (node.value.value).  A BlockNode carries its kind (node.type.value),
its optional identifier (node.name, a token whose .value is the string), and
the items of its container (node.container.items).  A ListNode carries its
kind and its items.  A ContainerNode is an untyped grouping node holding
items.  SyntaxToken leaves carry no structure used by the rules and are not
represented.
-/
inductive Node where
  | pair (key : String) (value : String)
  | block (kind : String) (name : Option String) (items : List Node)
  | listNode (kind : String) (items : List Node)
  | container (items : List Node)

/--
Embedding of the Python attribute node.type.value: the key of a pair, the
kind of a block or list.  A ContainerNode has no type attribute (accessing
it raises AttributeError in Python); the engine only reads the type of
typed nodes, so the container case is mapped to none.
-/
def Node.typeValue : Node → Option String
  | .pair key _ => some key
  | .block kind _ _ => some kind
  | .listNode kind _ => some kind
  | .container _ => none

/--
Embedding of the node.children property of lkml.tree: a PairNode has no
child nodes (None), a BlockNode exposes the single ContainerNode that wraps
its items, a ContainerNode and a ListNode expose their items.
-/
def Node.childrenOf : Node → Option (List Node)
  | .pair _ _ => none
  | .block _ _ items => some [Node.container items]
  | .listNode _ items => some items
  | .container items => some items

/--
Python truthiness of an optional string: None and the empty string are
falsy, every other string is truthy.
-/
def pyTruthyStr : Option String → Bool
  | none => false
  | some s => !(s == "")

/--
Python truthiness of an optional tuple of strings: None and the empty
tuple are falsy.
-/
def pyTruthyStrList : Option (List String) → Bool
  | none => false
  | some xs => !xs.isEmpty

/--
Assignment d[k] = v on a Python dict embedded as an association list in
insertion order: an existing key is overwritten in place, a new key is
appended at the end.
-/
def dictInsert {β : Type} (l : List (String × β)) (k : String) (v : β) :
    List (String × β) :=
  if l.any (fun p => p.1 == k) then
    l.map (fun p => if p.1 == k then (k, v) else p)
  else
    l ++ [(k, v)]

/--
Python string comparison on code-point lists: the strict lexicographic
order used by the Python less-than on str, character by character by code
point, with a proper leading run comparing less.
-/
def pyCharsLt : List Char → List Char → Bool
  | _, [] => false
  | [], _ :: _ => true
  | c :: cs, d :: ds =>
    if c < d then true
    else if d < c then false
    else pyCharsLt cs ds

/--
Python string comparison a < b, as used by the greater-than test of the
alphabetical OrderRule branch (node_value > prev_value is prev_value <
node_value).
-/
def pyStrLt (a b : String) : Bool :=
  pyCharsLt a.data b.data

/--
NodeContext from src/lkmlstyle/rules.py: the state threaded through a check
run.  previous_node maps a rule code to the last node seen by that rule;
table_to_view maps a sql table name to the view that first referenced it.
-/
structure NodeContext where
  previous_node : List (String × Node)
  table_to_view : List (String × String)

/-- NodeContext with both dictionaries empty, as built at the start of a run. -/
def NodeContext.empty : NodeContext :=
  { previous_node := [], table_to_view := [] }

/--
Common fields of the frozen Rule dataclass of src/lkmlstyle/rules.py.  The
select field is stored as the tuple it is normalised to by __post_init__.
Each filter is an already-applied predicate over a node, embedding the
functools.partial objects of the source.
-/
structure RuleBase where
  title : String
  code : String
  rationale : String
  select : List String
  filters : List (Node → Bool)

/--
Embedding of the Python str.endswith test: the code points of suffixStr are
a suffix of the code points of s.
-/
def strEndsWith (s suffixStr : String) : Bool :=
  suffixStr.data.isSuffixOf s.data

/--
Rule.selects from src/lkmlstyle/rules.py lines 37 to 38: the rule is
selected iff the lineage string ends with at least one selector.
-/
def RuleBase.selects (r : RuleBase) (lineage : String) : Bool :=
  r.select.any (fun selector => strEndsWith lineage selector)

/--
Rule.applies_to from src/lkmlstyle/rules.py lines 40 to 44: selected by
lineage and all filters pass.
-/
def RuleBase.applies_to (r : RuleBase) (node : Node) (lineage : String) : Bool :=
  r.selects lineage && r.filters.all (fun is_filter_valid => is_filter_valid node)

/--
Rule.get_node_value from src/lkmlstyle/rules.py lines 52 to 59: the value of
a pair; the name of a named block (node.name is a token object, so it is
truthy exactly when it is not None); otherwise None.
-/
def get_node_value : Node → Option String
  | .pair _ value => some value
  | .block _ (some name) _ => some name
  | _ => none

/--
PatternMatchRule from src/lkmlstyle/rules.py: regex holds the source text of
the regular expression and search its compiled behaviour, embedding
re.compile(regex).search as a boolean function on strings.
-/
structure PatternMatchRule extends RuleBase where
  regex : String
  search : String → Bool
  negative : Bool

/--
PatternMatchRule._matches from src/lkmlstyle/rules.py lines 72 to 75:
the regex search result, inverted when the rule is negative.
-/
def PatternMatchRule.matchesStr (r : PatternMatchRule) (s : String) : Bool :=
  let matched := r.search s
  if r.negative then !matched else matched

/--
PatternMatchRule.followed_by from src/lkmlstyle/rules.py lines 77 to 84:
a node with no extractable value passes vacuously with the context
unchanged; otherwise the extracted value is matched against the pattern.
-/
def PatternMatchRule.followed_by (r : PatternMatchRule) (node : Node)
    (context : NodeContext) : Bool × NodeContext :=
  match get_node_value node with
  | none => (true, context)
  | some value => (r.matchesStr value, context)

/--
ParameterRule from src/lkmlstyle/rules.py: criteria is the already-applied
predicate partial, negative inverts it.
-/
structure ParameterRule extends RuleBase where
  criteria : Node → Bool
  negative : Bool

/--
ParameterRule.followed_by from src/lkmlstyle/rules.py lines 92 to 97.
-/
def ParameterRule.followed_by (r : ParameterRule) (node : Node)
    (context : NodeContext) : Bool × NodeContext :=
  let matched := r.criteria node
  (if r.negative then !matched else matched, context)

/--
OrderRule from src/lkmlstyle/rules.py: exactly one of alphabetical,
is_first, or order is meant to be set (enforced by __post_init__).
-/
structure OrderRule extends RuleBase where
  alphabetical : Bool
  is_first : Bool
  use_key : Bool
  order : Option (List String)

/--
OrderRule.get_node_value from src/lkmlstyle/rules.py lines 116 to 123: for a
pair, the key when use_key is set, else the value; for a named block, its
name; otherwise None.
-/
def OrderRule.get_node_value (r : OrderRule) : Node → Option String
  | .pair key value => some (if r.use_key then key else value)
  | .block _ (some name) _ => some name
  | _ => none

/--
Python runtime values that take part in the membership test of the
fixed-order branch of OrderRule.followed_by.  The tested key is the set
built from the two extracted values (CPython converts an unhashable set key
to a frozenset before the membership test); the elements of set(self.order)
are plain strings.
-/
inductive PyObj where
  | pstr (s : String)
  | pset (a b : Option String)

/--
Python equality between the runtime values of PyObj: strings compare by
content, sets compare as unordered pairs, and values of different types are
never equal.
-/
def PyObj.pyEq : PyObj → PyObj → Bool
  | .pstr s, .pstr t => s == t
  | .pset a b, .pset c d => (a == c && b == d) || (a == d && b == c)
  | _, _ => false

/--
Embedding of the CPython membership test key in set(elems) where elems are
strings: the key is compared by Python equality against every element.
-/
def pyMemStrSet (key : PyObj) (elems : List String) : Bool :=
  elems.any (fun s => PyObj.pyEq (PyObj.pstr s) key)

/--
OrderRule.followed_by from src/lkmlstyle/rules.py lines 125 to 153.
prev is context.previous_node.get(self.code).  In the alphabetical branch a
falsy extracted value (None or the empty string) raises TypeError; strings
compare with the Python lexicographic code-point order, which coincides
with the order on String.  In the fixed-order branch, elif self.order is
truthy only for a non-None non-empty list, and the final else branch raises
AttributeError.  Every returned context is the context passed in: the
function never writes to context.previous_node.
-/
def OrderRule.followed_by (r : OrderRule) (node : Node) (context : NodeContext) :
    Except String (Bool × NodeContext) :=
  let prev := context.previous_node.lookup r.code
  if r.alphabetical then
    match prev with
    | some p =>
      let node_value := r.get_node_value node
      let prev_value := r.get_node_value p
      if pyTruthyStr node_value && pyTruthyStr prev_value then
        Except.ok (pyStrLt (prev_value.getD "") (node_value.getD ""), context)
      else
        Except.error "TypeError: Value of a compared node is None"
    | none => Except.ok (true, context)
  else if r.is_first then
    Except.ok (prev.isNone, context)
  else
    match r.order with
    | some (v0 :: rest) =>
      match prev with
      | some p =>
        let subset := PyObj.pset (r.get_node_value p) (r.get_node_value node)
        Except.ok (pyMemStrSet subset (v0 :: rest), context)
      | none =>
        Except.ok (r.get_node_value node == some v0, context)
    | _ =>
      Except.error "AttributeError: Alphabetical, is_first, or custom order must be set"

/--
get_child_by_type from src/lkmlstyle/rules.py lines 192 to 196: the first
item of the container of the block whose type equals node_type.  The source
takes a BlockNode; the items of a block container are typed nodes, so the
type access never raises there.
-/
def get_child_by_type (node : Node) (node_type : String) : Option Node :=
  match node with
  | .block _ _ items => items.find? (fun child => child.typeValue == some node_type)
  | _ => none

/--
DuplicateViewRule from src/lkmlstyle/rules.py lines 156 to 189: no fields
beyond the base rule.
-/
structure DuplicateViewRule extends RuleBase where

/--
DuplicateViewRule.followed_by from src/lkmlstyle/rules.py lines 158 to 189.
A non-block node passes vacuously.  A block without a name raises TypeError.
The result of get_child_by_type is checked with isinstance against PairNode
BEFORE the None check, so when the block has no sql_table_name child the
function raises TypeError (the later None branch is unreachable).  On a
fresh table name the pair is recorded in context.table_to_view; on a repeat
the rule fails.  The table_to_view is None guard of the source can never
fire in this embedding because the field is total.
-/
def DuplicateViewRule.followed_by (_r : DuplicateViewRule) (node : Node)
    (context : NodeContext) : Except String (Bool × NodeContext) :=
  match node with
  | .block _ name _ =>
    match name with
    | none => Except.error "TypeError: Name for view is None"
    | some view_name =>
      match get_child_by_type node "sql_table_name" with
      | some (.pair _ table_value) =>
        if (context.table_to_view.lookup table_value).isSome then
          Except.ok (false, context)
        else
          Except.ok
            (true,
             { context with
                 table_to_view :=
                   dictInsert context.table_to_view table_value view_name })
      | some _ =>
        Except.error "TypeError: Node for sql_table_name is of unexpected type"
      | none =>
        Except.error "TypeError: Node for sql_table_name is of unexpected type"
  | _ => Except.ok (true, context)

/--
node_has_valid_type from src/lkmlstyle/rules.py lines 203 to 204: the type
value of a typed node equals the given string.
-/
def node_has_valid_type (node : Node) (value : String) : Bool :=
  node.typeValue == some value

/--
pair_has_valid_value from src/lkmlstyle/rules.py lines 207 to 208: the value
of a pair equals the given string.  The source assumes a PairNode; call
sites guard with isinstance.
-/
def pair_has_valid_value (node : Node) (value : String) : Bool :=
  match node with
  | .pair _ pv => pv == value
  | _ => false

/--
Loop body of node_has_at_least_one_valid_child from src/lkmlstyle/rules.py
lines 211 to 220, over the children of a node: a ContainerNode child is
recursed into, any other child is tested with is_valid.
-/
def anyValidItem (is_valid : Node → Bool) : List Node → Bool
  | [] => false
  | Node.container inner :: rest => anyValidItem is_valid inner || anyValidItem is_valid rest
  | child :: rest => is_valid child || anyValidItem is_valid rest

/--
node_has_at_least_one_valid_child from src/lkmlstyle/rules.py lines 211 to
220: a node whose children attribute is None yields False; otherwise the
children are scanned, recursing through ContainerNode wrappers.  For a
block, node.children is the singleton containing its container, so the scan
proceeds over the container items.
-/
def node_has_at_least_one_valid_child (node : Node) (is_valid : Node → Bool) : Bool :=
  match node.childrenOf with
  | none => false
  | some children => anyValidItem is_valid children

/--
block_has_valid_parameter from src/lkmlstyle/rules.py lines 223 to 250:
False for a non-block; otherwise the block has at least one child that is a
typed node of type parameter_name, and, when value is truthy, that child is
a pair whose value matches; negative inverts the result.
-/
def block_has_valid_parameter (block : Node) (parameter_name : String)
    (value : Option String) (negative : Bool) : Bool :=
  match block with
  | .block _ _ _ =>
    let is_valid_param : Node → Bool := fun node =>
      match node.typeValue with
      | none => false
      | some _ =>
        if !node_has_valid_type node parameter_name then false
        else if pyTruthyStr value then
          match node with
          | .pair _ _ => pair_has_valid_value node (value.getD "")
          | _ => false
        else true
    let valid := node_has_at_least_one_valid_child block is_valid_param
    if negative then !valid else valid
  | _ => false

/--
Codes-set computation of choose_rules from src/lkmlstyle/check.py line 83:
codes = all_codes intersect set(select or all_codes) minus set(ignore or
empty tuple).  The rule catalog (a Python dict from code to rule) is an
association list in insertion order, so all_codes is its key list.  The
Python set has no deterministic order; this embedding enumerates the codes
in catalog order, which realises one of the admissible orders and the same
set of codes.
-/
def chooseCodes (all_codes : List String) (ignore select : Option (List String)) :
    List String :=
  all_codes.filter (fun c =>
    (if pyTruthyStrList select then select.getD [] else all_codes).contains c
      && !(ignore.getD []).contains c)

/--
Tail of choose_rules from src/lkmlstyle/check.py lines 82 to 89: when codes
is empty the whole catalog is returned, otherwise the rules looked up by
the surviving codes.
-/
def choose_rules {α : Type} (all_rules : List (String × α))
    (ignore select : Option (List String)) : List α :=
  let codes := chooseCodes (all_rules.map Prod.fst) ignore select
  if codes.isEmpty then all_rules.map Prod.snd
  else codes.filterMap (fun c => all_rules.lookup c)

/--
Modelled from the spec: resolve_overrides, the custom-rule step of the
configuration resolver (spec section 4.4 step 4: for each custom rule, if
its code matches an existing resolved rule code, replace that rule,
otherwise add it as a new rule).  The function is exercised by
tests/test_check.py but no implementation exists under src/; rules are
embedded as (code, payload) pairs.
-/
def resolve_overrides {α : Type} (ruleset : List (String × α))
    (custom_rules : List (String × α)) : List (String × α) :=
  custom_rules.foldl
    (fun acc c =>
      if acc.any (fun r => r.1 == c.1) then
        acc.map (fun r => if r.1 == c.1 then c else r)
      else
        acc ++ [c])
    ruleset

/--
Embedding of re.compile applied to an anchored literal pattern: the search
succeeds iff the literal is a leading run of the subject.  Used for the
M100 pattern, whose regex anchors the literal count_ at the start.
-/
def leadingMatch : List Char → List Char → Bool
  | [], _ => true
  | _ :: _, [] => false
  | p :: ps, c :: cs => p == c && leadingMatch ps cs

/--
Rule M100 from src/lkmlstyle/rules.py lines 293 to 306: a count measure
whose name does not start with count_ violates the rule.  The rationale
text is immaterial to the semantics and elided.
-/
def M100 : PatternMatchRule :=
  { title := "Name of count measure without the count_ start"
    code := "M100"
    rationale := ""
    select := ["measure"]
    filters := [fun node => block_has_valid_parameter node "type" (some "count") false]
    regex := "^count_"
    search := fun s => leadingMatch "count_".data s.data
    negative := false }

/--
Rule D106 from src/lkmlstyle/rules.py lines 545 to 557: dimensions must be
in alphabetical order.
-/
def D106 : OrderRule :=
  { title := "Dimension not in alphabetical order"
    code := "D106"
    rationale := ""
    select := ["dimension", "dimension_group"]
    filters := []
    alphabetical := true
    is_first := false
    use_key := true
    order := none }

/--
Rule V112 from src/lkmlstyle/rules.py lines 601 to 611: two views must not
use the same sql_table_name.
-/
def V112 : DuplicateViewRule :=
  { title := "View uses the same table as another view"
    code := "V112"
    rationale := ""
    select := ["view"]
    filters := [] }

/--
Sample OrderRule in fixed-order mode, with the order list a, b.  No rule of
the built-in catalog uses this mode; the sample exercises it.
-/
def orderRuleAB : OrderRule :=
  { title := ""
    code := "O1"
    rationale := ""
    select := ["x"]
    filters := []
    alphabetical := false
    is_first := false
    use_key := true
    order := some ["a", "b"] }

/--
Sample RuleBase whose selector is the lineage suffix measure.sql, as rule
M110 of the catalog uses.
-/
def measureSqlRule : RuleBase :=
  { title := ""
    code := "M110"
    rationale := ""
    select := ["measure.sql"]
    filters := [] }

/-- Parse tree of the source measure: users with a pair type: count inside. -/
def measureUsers : Node :=
  Node.block "measure" (some "users") [Node.pair "type" "count"]

/-- Parse tree of the source measure: count_users with a pair type: count inside. -/
def measureCountUsers : Node :=
  Node.block "measure" (some "count_users") [Node.pair "type" "count"]

/--
Parse tree of the view of tests/test_rules.py named test whose only child
is a derived_table block: it has no sql_table_name child parameter.
-/
def viewDerivedTable : Node :=
  Node.block "view" (some "test")
    [Node.block "derived_table" none [Node.pair "sql" "select 1"]]

/-- Dimension block named abc, with no children. -/
def dimAbc : Node := Node.block "dimension" (some "abc") []

/-- Dimension block named abd, with no children. -/
def dimAbd : Node := Node.block "dimension" (some "abd") []

/-- Dimension block named bcd, with no children. -/
def dimBcd : Node := Node.block "dimension" (some "bcd") []

/-- Dimension block named xyz, with no children. -/
def dimXyz : Node := Node.block "dimension" (some "xyz") []

/-- Pair node whose key is a, for the fixed-order samples (use_key is set). -/
def pairKeyA : Node := Node.pair "a" "1"

/-- Pair node whose key is b, for the fixed-order samples (use_key is set). -/
def pairKeyB : Node := Node.pair "b" "2"

/-- Context recording pairKeyA as the last node seen by rule code O1. -/
def ctxPrevA : NodeContext :=
  { previous_node := [("O1", pairKeyA)], table_to_view := [] }

/-- Context recording dimAbc as the last node seen by rule code D106. -/
def ctxD106Abc : NodeContext :=
  { previous_node := [("D106", dimAbc)], table_to_view := [] }

/--
Modelled from the spec: the per-code last-node update that the traversal
engine performs after evaluating an OrderRule on a node (spec section 4.2:
after evaluation, the context entry for this code is updated to the current
node regardless of pass or fail).  No code under src/ performs this update;
src/lkmlstyle/check.py only stores a single shared prev field.
-/
def updatePreviousNode (context : NodeContext) (code : String) (node : Node) :
    NodeContext :=
  { context with previous_node := dictInsert context.previous_node code node }

/--
Evaluation of one OrderRule over a sequence of qualifying sibling nodes,
threading the context with the spec-modelled per-code update after each
node and collecting the violating nodes in traversal order.
-/
def runOrderRule (r : OrderRule) : NodeContext → List Node → Except String (List Node)
  | _, [] => Except.ok []
  | context, node :: rest => do
    let result ← r.followed_by node context
    let violations ← runOrderRule r (updatePreviousNode result.2 r.code node) rest
    pure (if result.1 then violations else node :: violations)

/--
Specification-side restatement of the select and ignore filtering of claim
C1: the catalog entries whose code lies in select (or in the whole code
list when select is empty or absent) and does not lie in ignore.  Stated
separately so the behaviour of choose_rules can be compared against it.
-/
def keptRules {α : Type} (all_rules : List (String × α))
    (ignore select : Option (List String)) : List (String × α) :=
  all_rules.filter (fun q =>
    (if pyTruthyStrList select then select.getD [] else all_rules.map Prod.fst).contains q.1
      && !(ignore.getD []).contains q.1)

section SupportingLemmas

/--
Filtering the key list of an association list is filtering the entries and
then taking keys.
-/
theorem filter_map_fst {α : Type} (p : String → Bool) (l : List (String × α)) :
    (l.map Prod.fst).filter p = (l.filter (fun q => p q.1)).map Prod.fst := by
  induction l with
  | nil => rfl
  | cons q rest ih => by_cases h : p q.1 <;> simp [h, ih]

/--
In an association list with pairwise distinct keys, looking up the key of a
member entry returns the value of that entry.
-/
theorem lookup_self_of_nodup {α : Type} :
    ∀ l : List (String × α), (l.map Prod.fst).Nodup →
      ∀ q ∈ l, l.lookup q.1 = some q.2 := by
  intro l
  induction l with
  | nil => intro _ q hq; cases hq
  | cons r rest ih =>
    intro h q hq
    obtain ⟨rk, rv⟩ := r
    have h1 : rk ∉ rest.map Prod.fst := by simpa using (List.nodup_cons.mp h).1
    have h2 : (rest.map Prod.fst).Nodup := (List.nodup_cons.mp h).2
    rcases List.mem_cons.mp hq with rfl | hq'
    · simp [List.lookup]
    · have hne : (q.1 == rk) = false := by
        refine beq_eq_false_iff_ne.mpr ?_
        intro he
        exact h1 (he ▸ List.mem_map_of_mem Prod.fst hq')
      simpa [List.lookup, hne] using ih h2 q hq'

/--
Looking up every key of a list of entries that all resolve in the catalog
yields exactly the values of those entries.
-/
theorem filterMap_lookup_of_forall {α : Type} (all_rules : List (String × α)) :
    ∀ l : List (String × α), (∀ q ∈ l, all_rules.lookup q.1 = some q.2) →
      (l.map Prod.fst).filterMap (fun c => all_rules.lookup c) = l.map Prod.snd := by
  intro l
  induction l with
  | nil => intro _; rfl
  | cons q rest ih =>
    intro h
    have hq := h q (by simp)
    have hrest := ih (fun p hp => h p (by simp [hp]))
    simp [List.filterMap_cons, hq, hrest]

/--
Membership of a Python set of strings never holds for a set-typed key: the
comparison of a string element with a set value is always unequal.
-/
theorem pyMemStrSet_pset (a b : Option String) (elems : List String) :
    pyMemStrSet (PyObj.pset a b) elems = false := by
  induction elems with
  | nil => rfl
  | cons s rest ih => simp [pyMemStrSet, PyObj.pyEq, ih]

/--
The embedded Python string comparison agrees with the lexicographic order
on code-point lists used by the core library.
-/
theorem pyCharsLt_iff_lt : ∀ l₁ l₂ : List Char, pyCharsLt l₁ l₂ = true ↔ List.lt l₁ l₂ := by
  intro l₁
  induction l₁ with
  | nil =>
    intro l₂
    cases l₂ with
    | nil =>
      constructor
      · intro h
        simp [pyCharsLt] at h
      · intro h
        cases h
    | cons d ds =>
      constructor
      · intro _
        exact List.lt.nil d ds
      · intro _
        rfl
  | cons c cs ih =>
    intro l₂
    cases l₂ with
    | nil =>
      constructor
      · intro h
        simp [pyCharsLt] at h
      · intro h
        cases h
    | cons d ds =>
      constructor
      · intro h
        by_cases h1 : c < d
        · exact List.lt.head cs ds h1
        · by_cases h2 : d < c
          · simp [pyCharsLt, h1, h2] at h
          · exact List.lt.tail h1 h2 ((ih ds).mp (by simpa [pyCharsLt, h1, h2] using h))
      · intro h
        cases h with
        | head _ _ hlt => simp [pyCharsLt, hlt]
        | tail hne1 hne2 htl =>
          simp only [pyCharsLt, if_neg hne1, if_neg hne2]
          exact (ih ds).mpr htl

end SupportingLemmas

/--
Claim C1, counterexample: with the catalog holding the single code A and
the code A appearing in both select and ignore, choose_rules returns the
rule of code A, although the claim states that a code appearing in both
select and ignore is excluded (the filtered code set is empty, so the
source falls back to returning the whole catalog).
-/
theorem choose_rules_ignored_code_still_returned :
    (0 : Nat) ∈ choose_rules [("A", (0 : Nat))] (some ["A"]) (some ["A"]) := by
  decide

/--
Claim C1, amended: for every catalog and select and ignore tuples,
choose_rules returns exactly the rules whose codes are in select (or all
codes, when select is empty or absent) minus the codes in ignore, except
when that filtering leaves no code at all, in which case the entire
catalog is returned; ignore wins over select only when at least one
selected code survives.
-/
theorem choose_rules_characterization {α : Type} (all_rules : List (String × α))
    (ignore select : Option (List String))
    (hnodup : (all_rules.map Prod.fst).Nodup) :
    choose_rules all_rules ignore select =
      if (keptRules all_rules ignore select).isEmpty then all_rules.map Prod.snd
      else (keptRules all_rules ignore select).map Prod.snd := by
  have hcodes :
      chooseCodes (all_rules.map Prod.fst) ignore select =
        (keptRules all_rules ignore select).map Prod.fst := by
    unfold chooseCodes keptRules
    exact filter_map_fst _ all_rules
  have hlook : ∀ q ∈ keptRules all_rules ignore select,
      all_rules.lookup q.1 = some q.2 := by
    intro q hq
    exact lookup_self_of_nodup all_rules hnodup q (List.mem_of_mem_filter hq)
  unfold choose_rules
  rw [hcodes]
  by_cases hemp : (keptRules all_rules ignore select).isEmpty
  · simp [hemp, List.isEmpty_iff.mp hemp]
  · have hemp2 : ((keptRules all_rules ignore select).map Prod.fst).isEmpty = false := by
      simp only [List.isEmpty_eq_false] at *
      simpa using hemp
    simp only [hemp2, Bool.false_eq_true, if_false, hemp]
    exact filterMap_lookup_of_forall all_rules _ hlook

/--
Claim C1, witness for the amended theorem: the configuration of the spec
test, select V100 and D100 with ignore D100 over a two-rule catalog,
resolves to exactly the rule of code V100.
-/
theorem choose_rules_characterization_witness :
    (([("V100", (1 : Nat)), ("D100", 2)].map Prod.fst).Nodup)
      ∧ choose_rules [("V100", (1 : Nat)), ("D100", 2)] (some ["D100"])
          (some ["V100", "D100"]) = [1] :=
  ⟨by decide,
   (choose_rules_characterization [("V100", (1 : Nat)), ("D100", 2)] (some ["D100"])
      (some ["V100", "D100"]) (by decide)).trans (by decide)⟩

/--
Claim C9: whenever the select and ignore filtering of choose_rules leaves
an empty code set, choose_rules returns the values of the entire catalog
rather than an empty tuple.
-/
theorem choose_rules_empty_filter_returns_all {α : Type}
    (all_rules : List (String × α)) (ignore select : Option (List String))
    (h : chooseCodes (all_rules.map Prod.fst) ignore select = []) :
    choose_rules all_rules ignore select = all_rules.map Prod.snd := by
  unfold choose_rules
  rw [h]
  rfl

/--
Claim C9, witness: selecting only the absent code Z over a two-rule
catalog leaves no code, and choose_rules returns both rules.
-/
theorem choose_rules_empty_filter_returns_all_witness :
    chooseCodes (["A", "B"]) none (some ["Z"]) = []
      ∧ choose_rules [("A", (0 : Nat)), ("B", 1)] none (some ["Z"]) = [0, 1] :=
  ⟨by decide,
   choose_rules_empty_filter_returns_all [("A", (0 : Nat)), ("B", 1)] none
     (some ["Z"]) (by decide)⟩

/--
Claim C5: during configuration resolution, a custom rule whose code equals
the code of an already-resolved rule replaces that rule (the old rule is
absent from the resolved set and the custom one present, every rule of a
different code kept), and a custom rule with a novel code is added with
all existing rules retained.  resolve_overrides is modelled from the spec
because only the tests reference it.
-/
theorem resolve_overrides_replace_or_extend {α : Type}
    (ruleset : List (String × α)) (c : String × α) :
    ((∃ old ∈ ruleset, old.1 = c.1) →
        c ∈ resolve_overrides ruleset [c]
          ∧ (∀ old ∈ ruleset, old.1 = c.1 → old.2 ≠ c.2 →
              old ∉ resolve_overrides ruleset [c])
          ∧ (∀ r ∈ ruleset, r.1 ≠ c.1 → r ∈ resolve_overrides ruleset [c]))
      ∧ ((∀ old ∈ ruleset, old.1 ≠ c.1) →
          resolve_overrides ruleset [c] = ruleset ++ [c]) := by
  constructor
  · intro hex
    obtain ⟨old, hold, holdc⟩ := hex
    have hany : ruleset.any (fun r => r.1 == c.1) = true :=
      List.any_eq_true.mpr ⟨old, hold, beq_iff_eq.mpr holdc⟩
    have hres : resolve_overrides ruleset [c] =
        ruleset.map (fun r => if r.1 == c.1 then c else r) := by
      unfold resolve_overrides
      simp [hany]
    refine ⟨?_, ?_, ?_⟩
    · rw [hres]
      exact List.mem_map.mpr ⟨old, hold, by simp [beq_iff_eq.mpr holdc]⟩
    · intro o ho hoc hov hmem
      rw [hres] at hmem
      obtain ⟨r, _, hr⟩ := List.mem_map.mp hmem
      by_cases hrc : (r.1 == c.1) = true
      · rw [if_pos hrc] at hr
        exact hov (by rw [← hr])
      · rw [if_neg (by simpa using hrc)] at hr
        apply (by simpa using hrc : ¬r.1 = c.1)
        rw [hr, hoc]
    · intro r hr hrc
      rw [hres]
      exact List.mem_map.mpr ⟨r, hr, by simp [beq_eq_false_iff_ne.mpr hrc]⟩
  · intro hnone
    have hany : ruleset.any (fun r => r.1 == c.1) = false := by
      simp only [List.any_eq_false]
      intro r hr
      simpa using hnone r hr
    unfold resolve_overrides
    simp [hany]

/--
Claim C5, witness: overriding code A in a two-rule catalog keeps B, drops
the old A rule and inserts the custom one; adding the novel code C appends
it with both existing rules kept.
-/
theorem resolve_overrides_replace_or_extend_witness :
    (("A", (2 : Nat)) ∈ resolve_overrides [("A", (0 : Nat)), ("B", 1)] [("A", 2)])
      ∧ (("A", (0 : Nat)) ∉ resolve_overrides [("A", (0 : Nat)), ("B", 1)] [("A", 2)])
      ∧ resolve_overrides [("A", (0 : Nat)), ("B", 1)] [("C", 2)] =
          [("A", 0), ("B", 1), ("C", 2)] := by
  have hrep := (resolve_overrides_replace_or_extend [("A", (0 : Nat)), ("B", 1)]
    ("A", 2)).1 ⟨("A", 0), by simp, rfl⟩
  have hext := (resolve_overrides_replace_or_extend [("A", (0 : Nat)), ("B", 1)]
    ("C", 2)).2 (by decide)
  exact ⟨hrep.1, hrep.2.1 ("A", 0) (by simp) rfl (by decide), hext⟩

/--
Claim C2: evaluation of the count-measure rule M100 at the level of the
rule model of src/lkmlstyle/rules.py, on source defining measure users of
type count and measure count_users of type count: the rule applies to both
measure blocks under the lineage measure and its pattern rejects the name
users while accepting count_users.  The check entry point itself cannot
report these results: src/lkmlstyle/check.py calls rule.applies_to and
rule.followed_by with the argument lists of an older rule interface, so
running check raises TypeError before any violation is collected (see the
results record of this claim).
-/
theorem m100_count_measure_evaluation :
    M100.toRuleBase.applies_to measureUsers "measure" = true
      ∧ M100.followed_by measureUsers NodeContext.empty = (false, NodeContext.empty)
      ∧ M100.toRuleBase.applies_to measureCountUsers "measure" = true
      ∧ M100.followed_by measureCountUsers NodeContext.empty = (true, NodeContext.empty) := by
  refine ⟨?_, rfl, ?_, rfl⟩
  · simp [RuleBase.applies_to, RuleBase.selects, M100, strEndsWith,
      block_has_valid_parameter, node_has_at_least_one_valid_child, anyValidItem,
      Node.childrenOf, node_has_valid_type, Node.typeValue, pyTruthyStr,
      pair_has_valid_value, measureUsers]
  · simp [RuleBase.applies_to, RuleBase.selects, M100, strEndsWith,
      block_has_valid_parameter, node_has_at_least_one_valid_child, anyValidItem,
      Node.childrenOf, node_has_valid_type, Node.typeValue, pyTruthyStr,
      pair_has_valid_value, measureCountUsers]

/--
Claim C3: OrderRule.followed_by returns whatever context it was given,
unchanged, whether the evaluation passed or failed; in particular the
previous-node entry for the rule code is never set to the node just
evaluated by followed_by, and no code under src/ sets it elsewhere.
-/
theorem orderRule_followed_by_leaves_context_unchanged
    (r : OrderRule) (node : Node) (context next : NodeContext) (b : Bool)
    (h : r.followed_by node context = Except.ok (b, next)) :
    next = context := by
  simp only [OrderRule.followed_by] at h
  repeat' split at h
  all_goals simp_all

/--
Claim C3, witness: evaluating D106 on a dimension block with the empty
context succeeds and the returned context is the empty context, whose
previous-node dictionary records nothing for D106.
-/
theorem orderRule_followed_by_leaves_context_unchanged_witness :
    NodeContext.empty = NodeContext.empty
      ∧ NodeContext.empty.previous_node.lookup "D106" = none :=
  ⟨orderRule_followed_by_leaves_context_unchanged D106 dimAbc NodeContext.empty
     NodeContext.empty true rfl, rfl⟩

/--
Claim C4: on the view block of the repository test that has a derived
table and no sql_table_name child, DuplicateViewRule.followed_by raises
TypeError instead of passing vacuously, because the isinstance check on
the missing child precedes the None check.
-/
theorem duplicateViewRule_missing_table_raises :
    V112.followed_by viewDerivedTable NodeContext.empty =
      Except.error "TypeError: Node for sql_table_name is of unexpected type" := rfl

/--
Claim C6, counterexample: for the fixed-order rule with order a then b,
previous node of extracted value a and current node of extracted value b,
the unordered pair of values is exactly the declared adjacent transition,
yet followed_by returns a failure, where the claim predicts a pass.
-/
theorem orderRule_fixed_order_adjacent_pair_fails :
    orderRuleAB.followed_by pairKeyB ctxPrevA = Except.ok (false, ctxPrevA) := rfl

/--
Claim C6, amended: for an OrderRule in fixed-order mode, the first
qualifying node (no previous node recorded under the rule code) passes iff
its extracted value equals the head of the order list; every subsequent
qualifying node fails unconditionally, because the membership test
compares the two-element set of values against the strings of the order
list and never matches.
-/
theorem orderRule_fixed_order_characterization (r : OrderRule) (node : Node)
    (context : NodeContext) (v0 : String) (vs : List String)
    (halpha : r.alphabetical = false) (hfirst : r.is_first = false)
    (horder : r.order = some (v0 :: vs)) :
    (context.previous_node.lookup r.code = none →
        r.followed_by node context =
          Except.ok (r.get_node_value node == some v0, context))
      ∧ ∀ p, context.previous_node.lookup r.code = some p →
          r.followed_by node context = Except.ok (false, context) := by
  constructor
  · intro hprev
    simp [OrderRule.followed_by, halpha, hfirst, horder, hprev]
  · intro p hprev
    simp [OrderRule.followed_by, halpha, hfirst, horder, hprev, pyMemStrSet_pset]

/--
Claim C6, witness for the amended theorem: the first qualifying node with
value a passes against order a then b, and a second qualifying node fails
even on the declared adjacent transition from a to b.
-/
theorem orderRule_fixed_order_characterization_witness :
    orderRuleAB.followed_by pairKeyA NodeContext.empty =
        Except.ok (true, NodeContext.empty)
      ∧ orderRuleAB.followed_by pairKeyB ctxPrevA = Except.ok (false, ctxPrevA) := by
  have h1 := (orderRule_fixed_order_characterization orderRuleAB pairKeyA
    NodeContext.empty "a" ["b"] rfl rfl rfl).1 rfl
  have h2 := (orderRule_fixed_order_characterization orderRuleAB pairKeyB
    ctxPrevA "a" ["b"] rfl rfl rfl).2 pairKeyA rfl
  exact ⟨h1, h2⟩

/--
Claim C7: in alphabetical mode a node with no previous node for the rule
code always passes; with a previous node and both extracted values present
(truthy), the node passes iff its value strictly sorts after the previous
value in the case-sensitive ordinal order (pyStrLt, which agrees with the
lexicographic order on code-point lists); over the sibling values abc,
abd, bcd, xyz in order there is no violation, and over abc, xyz, abd, bcd
exactly the node of value abd violates.  The per-code update of the
previous node between siblings is modelled from the spec (runOrderRule),
since no code under src/ performs it.
-/
theorem orderRule_alphabetical_characterization :
    (∀ (r : OrderRule) (node : Node) (context : NodeContext),
        r.alphabetical = true →
        context.previous_node.lookup r.code = none →
        r.followed_by node context = Except.ok (true, context))
      ∧ (∀ (r : OrderRule) (node p : Node) (context : NodeContext) (nv pv : String),
          r.alphabetical = true →
          context.previous_node.lookup r.code = some p →
          r.get_node_value node = some nv → nv ≠ "" →
          r.get_node_value p = some pv → pv ≠ "" →
          r.followed_by node context = Except.ok (pyStrLt pv nv, context))
      ∧ (∀ a b : String, pyStrLt a b = true ↔ List.lt a.data b.data)
      ∧ runOrderRule D106 NodeContext.empty [dimAbc, dimAbd, dimBcd, dimXyz] =
          Except.ok []
      ∧ runOrderRule D106 NodeContext.empty [dimAbc, dimXyz, dimAbd, dimBcd] =
          Except.ok [dimAbd] := by
  refine ⟨?_, ?_, fun a b => pyCharsLt_iff_lt a.data b.data, rfl, rfl⟩
  · intro r node context halpha hprev
    simp [OrderRule.followed_by, halpha, hprev]
  · intro r node p context nv pv halpha hprev hnv hnvne hpv hpvne
    simp [OrderRule.followed_by, halpha, hprev, hnv, hpv, pyTruthyStr, hnvne, hpvne]

/--
Claim C7, witness: D106 evaluated on the dimension abd after the dimension
abc passes, with the pass computed by the ordinal comparison.
-/
theorem orderRule_alphabetical_characterization_witness :
    D106.followed_by dimAbd ctxD106Abc = Except.ok (pyStrLt "abc" "abd", ctxD106Abc) :=
  orderRule_alphabetical_characterization.2.1 D106 dimAbd dimAbc ctxD106Abc
    "abd" "abc" rfl rfl rfl (by decide) rfl (by decide)

/--
Claim C8: a rule is selected for the current node iff the lineage string
ends with at least one of the rule selector strings, a suffix match on the
joined lineage with multiple selectors joined by or; a rule selecting
measure.sql is selected for a sql pair under a measure at any nesting
depth and not for a sql pair only under a dimension.
-/
theorem rule_selects_lineage_suffix (r : RuleBase) (lineage : String) :
    (r.selects lineage = true ↔
        ∃ selector ∈ r.select, selector.data <:+ lineage.data)
      ∧ measureSqlRule.selects "document.view.measure.sql" = true
      ∧ measureSqlRule.selects "document.view.dimension.sql" = false := by
  refine ⟨?_, by decide, by decide⟩
  simp [RuleBase.selects, strEndsWith, List.any_eq_true, List.isSuffixOf_iff_suffix]

/--
Claim C8, witness: the rule selecting measure.sql is selected for the
lineage view.measure.sql.
-/
theorem rule_selects_lineage_suffix_witness :
    measureSqlRule.selects "view.measure.sql" = true :=
  (rule_selects_lineage_suffix measureSqlRule "view.measure.sql").1.mpr
    ⟨"measure.sql", by decide, by decide⟩

/--
Claim C10: for every block node without a name, PatternMatchRule
followed_by returns a vacuous pass with the context unchanged, for any
rule of that kind, because value extraction yields no text for an unnamed
block; the embedding is a total function, so no exception is possible.
-/
theorem patternMatchRule_unnamed_block_vacuous_pass
    (r : PatternMatchRule) (kind : String) (items : List Node)
    (context : NodeContext) :
    r.followed_by (Node.block kind none items) context = (true, context) := rfl

/--
Claim C10, witness: rule M100 on an unnamed measure block with the empty
context passes and leaves the context empty.
-/
theorem patternMatchRule_unnamed_block_vacuous_pass_witness :
    M100.followed_by (Node.block "measure" none []) NodeContext.empty =
      (true, NodeContext.empty) :=
  patternMatchRule_unnamed_block_vacuous_pass M100 "measure" [] NodeContext.empty

end Lkmlstyle
